import Mathlib

/-!
Verification of the ink-rpc message model (src/request.rs, src/response.rs).

The library is a typed envelope over a generic JSON value:
a request record with a globally incremented u64 id, and a response
wrapper around an untyped JSON document with lenient accessors.
The embedding below translates the two Rust modules into Lean:
machine integers are `Nat` with explicit reduction modulo 2^64 where the
source wraps, stateful id generation is explicit state passing, and the
operations that can fail or abort return `Except` or `Option`.
-/

/-- Numbers of the backing JSON library: an unsigned integer (u64 range),
a negative signed integer, or a floating value; only the unsigned form is
representable as an unsigned 64-bit integer. The float payload records the
64 raw bits and is never inspected by the operations modelled here. -/
inductive JNum where
  | posInt (n : Nat)
  | negInt (n : Int)
  | float (bits : Nat)

/-- Modelled from the spec: generic JSON values. The repository's manifest
(which selects the JSON library's map representation and hence key order)
is not under src/; the spec states that serialized field order follows
declaration/insertion order, so objects are modelled as association lists
that preserve insertion order, with in-place overwrite of an existing key
and append of a fresh key. -/
inductive Json where
  | null
  | bool (b : Bool)
  | num (n : JNum)
  | str (s : String)
  | arr (elems : List Json)
  | obj (fields : List (String × Json))

/-- Value::as_u64 of the backing JSON library: a number stored as an
unsigned integer yields it; every other value is not representable. -/
def Json.asU64 : Json → Option Nat
  | .num (.posInt n) => some n
  | _ => none

/-- Value::get with a string key: key lookup on an object, none otherwise. -/
def Json.get (j : Json) (key : String) : Option Json :=
  match j with
  | .obj fs => fs.lookup key
  | _ => none

/-- Keys of an object in stored order (empty for non-objects). -/
def Json.objKeys : Json → List String
  | .obj fs => fs.map Prod.fst
  | _ => []

/-- Overwrites the value at a key in place, or appends the pair at the end
when the key is absent (insertion-order map semantics). -/
def insertKey : List (String × Json) → String → Json → List (String × Json)
  | [], k, v => [(k, v)]
  | (k', v') :: rest, k, v =>
      if k' == k then (k, v) :: rest else (k', v') :: insertKey rest k v

/-- The string-index write `value[key] = v` of the backing JSON library:
on null the document becomes a fresh one-key object, on an object the key
is written, and on any other value the operation aborts (modelled as
`none`). -/
def indexOrInsert (j : Json) (key : String) (v : Json) : Option Json :=
  match j with
  | .null => some (.obj [(key, v)])
  | .obj fs => some (.obj (insertKey fs key v))
  | _ => none

/-- 2^64, the modulus of the u64 request-id counter. -/
def U64_MOD : Nat := 18446744073709551616

/-- The process-global `NEXT_ID` atomic counter, made explicit state. -/
structure IdGen where
  next : Nat

/-- `NEXT_ID` starts at 1. -/
def IdGen.init : IdGen := ⟨1⟩

/-- `fetch_add(1, SeqCst)`: returns the current value and wraps the
incremented counter modulo 2^64 as the atomic does. -/
def IdGen.fetchAdd (g : IdGen) : Nat × IdGen :=
  (g.next, ⟨(g.next + 1) % U64_MOD⟩)

/-- The RpcRequest record of src/request.rs. -/
structure RpcRequest where
  jsonrpc : String
  method : String
  params : Json
  id : Nat

/-- RpcRequest::new — jsonrpc "2.0", empty method, null params, id drawn
from the shared counter. -/
def RpcRequest.new (g : IdGen) : RpcRequest × IdGen :=
  let r := g.fetchAdd
  (⟨"2.0", "", Json.null, r.1⟩, r.2)

/-- RpcRequest::set_method — in-place replacement of the method. -/
def RpcRequest.set_method (r : RpcRequest) (m : String) : RpcRequest :=
  { r with method := m }

/-- RpcRequest::set_params — in-place replacement of the params. -/
def RpcRequest.set_params (r : RpcRequest) (p : Json) : RpcRequest :=
  { r with params := p }

/-- RpcRequest::to_json — serializes the record into a JSON object with the
four fields in declaration order. Serialization of this fixed shape cannot
fail, so the null fallback of the source is unreachable and the function is
total. -/
def RpcRequest.to_json (r : RpcRequest) : Json :=
  .obj [("jsonrpc", .str r.jsonrpc), ("method", .str r.method),
        ("params", r.params), ("id", .num (.posInt r.id))]

/-- True when one of the four struct field names occurs more than once in
the entry list; the derived deserializer rejects such a map with a
duplicate-field error. (JSON-library map values never contain duplicate
keys, so on representable documents this is always false.) -/
def dupKnown (fs : List (String × Json)) : Bool :=
  decide (2 ≤ (fs.filter (fun p => p.1 == "jsonrpc")).length)
  || decide (2 ≤ (fs.filter (fun p => p.1 == "method")).length)
  || decide (2 ≤ (fs.filter (fun p => p.1 == "params")).length)
  || decide (2 ≤ (fs.filter (fun p => p.1 == "id")).length)

/-- RpcRequest::from_json — the derived deserialization of the record from
a JSON value. An object must carry `jsonrpc` and `method` as strings,
`params` as any value, and `id` as an unsigned integer; unknown keys are
ignored and duplicated field names are an error. The derived deserializer
also accepts a four-element array holding the fields positionally
(its sequence-visiting path); every other value is a type error. -/
def RpcRequest.from_json (j : Json) : Except String RpcRequest :=
  match j with
  | .obj fs =>
      if dupKnown fs then .error "duplicate field"
      else
        match fs.lookup "jsonrpc", fs.lookup "method",
              fs.lookup "params", fs.lookup "id" with
        | some (.str jv), some (.str m), some p, some idv =>
            match idv.asU64 with
            | some n => .ok ⟨jv, m, p, n⟩
            | none => .error "invalid type for field id"
        | _, _, _, _ => .error "missing or mistyped field"
  | .arr [Json.str jv, Json.str m, p, idv] =>
      match idv.asU64 with
      | some n => .ok ⟨jv, m, p, n⟩
      | none => .error "invalid type for field id"
  | _ => .error "invalid type"

/-- The RpcResponse wrapper of src/response.rs: a single JSON document. -/
structure RpcResponse where
  value : Json

/-- RpcResponse::new — a document with only the protocol version and the
given id, in that insertion order. Infallible. -/
def RpcResponse.new (id : Nat) : RpcResponse :=
  ⟨.obj [("jsonrpc", .str "2.0"), ("id", .num (.posInt id))]⟩

/-- RpcResponse::from_json — wraps an arbitrary value unchanged. -/
def RpcResponse.from_json (v : Json) : RpcResponse := ⟨v⟩

/-- RpcResponse::as_json — the backing document. -/
def RpcResponse.as_json (r : RpcResponse) : Json := r.value

/-- RpcResponse::id — the `id` key coerced to u64, defaulting to 0 when the
key is absent or not an unsigned integer. -/
def RpcResponse.id (r : RpcResponse) : Nat :=
  ((r.value.get "id").bind Json.asU64).getD 0

/-- RpcResponse::result — the `result` key, defaulting to null. -/
def RpcResponse.result (r : RpcResponse) : Json :=
  (r.value.get "result").getD .null

/-- RpcResponse::set_result — `value["result"] = v`; `none` models the
abort of the string-index write on a non-null non-object document. -/
def RpcResponse.set_result (r : RpcResponse) (v : Json) : Option RpcResponse :=
  (indexOrInsert r.value "result" v).map RpcResponse.mk

/-- RpcResponse::error — the `error` key, defaulting to null. -/
def RpcResponse.error (r : RpcResponse) : Json :=
  (r.value.get "error").getD .null

/-- RpcResponse::set_error — `value["error"] = v`; `none` models the abort
of the string-index write on a non-null non-object document. -/
def RpcResponse.set_error (r : RpcResponse) (v : Json) : Option RpcResponse :=
  (indexOrInsert r.value "error" v).map RpcResponse.mk

/-- The counter state after n constructor calls starting from process
start. -/
def genAfter : Nat → IdGen
  | 0 => IdGen.init
  | n + 1 => (RpcRequest.new (genAfter n)).2

/-- The id stamped on the (n+1)-st request constructed in the process. -/
def idAt (n : Nat) : Nat := ((RpcRequest.new (genAfter n)).1).id

/-- True exactly on the documents the string-index write accepts. -/
def Json.isNullOrObj : Json → Bool
  | .null => true
  | .obj _ => true
  | _ => false

/-- True when an entry list carries the four request fields with the types
the deserializer demands. -/
def reqFieldsOk (fs : List (String × Json)) : Bool :=
  (match fs.lookup "jsonrpc" with | some (.str _) => true | _ => false)
  && (match fs.lookup "method" with | some (.str _) => true | _ => false)
  && (fs.lookup "params").isSome
  && (match fs.lookup "id" with | some v => (Json.asU64 v).isSome | none => false)

/-! ## Supporting lemmas -/

lemma genAfter_next (n : Nat) : (genAfter n).next = (1 + n) % U64_MOD := by
  induction n with
  | zero =>
      show (1 : Nat) = 1 % U64_MOD
      rw [Nat.mod_eq_of_lt]
      unfold U64_MOD
      omega
  | succ n ih =>
      show ((genAfter n).next + 1) % U64_MOD = (1 + (n + 1)) % U64_MOD
      rw [ih, Nat.mod_add_mod, Nat.add_assoc]

lemma idAt_eq (n : Nat) : idAt n = (1 + n) % U64_MOD := genAfter_next n

lemma insertKey_lookup_self (fs : List (String × Json)) (k : String) (v : Json) :
    (insertKey fs k v).lookup k = some v := by
  induction fs with
  | nil => simp [insertKey, List.lookup]
  | cons hd tl ih =>
      obtain ⟨k', v'⟩ := hd
      by_cases h : k' = k
      · simp [insertKey, h, List.lookup]
      · have hb : (k' == k) = false := beq_eq_false_iff_ne.mpr h
        have hb' : (k == k') = false := beq_eq_false_iff_ne.mpr (Ne.symm h)
        simp [insertKey, hb, List.lookup, hb', ih]

lemma insertKey_lookup_other (fs : List (String × Json)) (k : String) (v : Json)
    (k' : String) (h : k' ≠ k) :
    (insertKey fs k v).lookup k' = fs.lookup k' := by
  induction fs with
  | nil => simp [insertKey, List.lookup, beq_eq_false_iff_ne.mpr h]
  | cons hd tl ih =>
      obtain ⟨k₀, v₀⟩ := hd
      by_cases h₀ : k₀ = k
      · subst h₀
        simp [insertKey, List.lookup, beq_eq_false_iff_ne.mpr h]
      · simp [insertKey, beq_eq_false_iff_ne.mpr h₀, List.lookup]
        by_cases h₁ : k' = k₀
        · simp [h₁]
        · simp [beq_eq_false_iff_ne.mpr h₁, ih]

lemma setKey_frame (j : Json) (key : String) (v : Json) (j' : Json)
    (h : indexOrInsert j key v = some j') :
    j'.get key = some v ∧ ∀ k, k ≠ key → j'.get k = j.get k := by
  cases j with
  | null =>
      simp only [indexOrInsert, Option.some.injEq] at h
      subst h
      constructor
      · simp [Json.get, List.lookup]
      · intro k hk
        simp [Json.get, List.lookup, beq_eq_false_iff_ne.mpr hk]
  | obj fs =>
      simp only [indexOrInsert, Option.some.injEq] at h
      subst h
      constructor
      · simpa [Json.get] using insertKey_lookup_self fs key v
      · intro k hk
        simpa [Json.get] using insertKey_lookup_other fs key v k hk
  | bool b => simp [indexOrInsert] at h
  | num n => simp [indexOrInsert] at h
  | str s => simp [indexOrInsert] at h
  | arr es => simp [indexOrInsert] at h

/-! ## Claim theorems -/

/-- C1 (counterexample): the id counter is a wrapping u64. The first
constructed request has id 1, but the 2^64-th request constructed in the
same process receives id 0, which is neither ≥ 1 nor greater than any
earlier id, so the claim as stated fails for sufficiently long call
sequences. -/
theorem C1_counterexample : idAt 0 = 1 ∧ idAt (U64_MOD - 1) = 0 := by
  constructor
  · rfl
  · rw [idAt_eq]
    decide

/-- C1 (amended): within the first 2^64 − 1 constructor calls of a process
(before the u64 counter wraps), every request's id is at least 1 and
strictly greater than the id of every previously constructed request, so
the ids are pairwise distinct. -/
theorem C1_monotonic_ids (i j : Nat) (hij : i < j) (hj : j ≤ U64_MOD - 2) :
    1 ≤ idAt i ∧ idAt i < idAt j := by
  have hM : U64_MOD = 18446744073709551616 := rfl
  have hi : idAt i = 1 + i := by
    rw [idAt_eq]
    apply Nat.mod_eq_of_lt
    omega
  have hj' : idAt j = 1 + j := by
    rw [idAt_eq]
    apply Nat.mod_eq_of_lt
    omega
  omega

/-- C1 (witness): the first two requests of a process get ids 1 and 2. -/
theorem C1_witness : 1 ≤ idAt 0 ∧ idAt 0 < idAt 1 :=
  C1_monotonic_ids 0 1 (by decide) (by decide)

/-- C2: for every RpcRequest r — any method string, any params value, any
id — RpcRequest::from_json applied to r.to_json() succeeds and returns a
request equal to r, in particular with the same method(), params() and
id(). -/
theorem C2_roundtrip (r : RpcRequest) :
    RpcRequest.from_json r.to_json = Except.ok r := rfl

/-- C4: RpcResponse accessors never fail and degrade to defaults — id()
is 0 whenever the `id` key is absent or its value is not representable as
an unsigned 64-bit integer, and result()/error() are JSON null whenever
the respective key is absent. -/
theorem C4_lenient_accessors (v : Json) :
    ((v.get "id").bind Json.asU64 = none → (RpcResponse.from_json v).id = 0)
    ∧ (v.get "result" = none → (RpcResponse.from_json v).result = Json.null)
    ∧ (v.get "error" = none → (RpcResponse.from_json v).error = Json.null) := by
  refine ⟨fun h => ?_, fun h => ?_, fun h => ?_⟩ <;>
    simp [RpcResponse.from_json, RpcResponse.id, RpcResponse.result,
          RpcResponse.error, h]

/-- C4 (witness): from_json of the spec's two concrete documents — one
without an `id` key and one whose `id` is the string "not_a_number" —
both yield id() == 0. -/
theorem C4_witness :
    (RpcResponse.from_json
      (Json.obj [("jsonrpc", Json.str "2.0"), ("result", Json.str "test")])).id = 0
    ∧ (RpcResponse.from_json
      (Json.obj [("id", Json.str "not_a_number")])).id = 0 :=
  ⟨(C4_lenient_accessors
      (Json.obj [("jsonrpc", Json.str "2.0"), ("result", Json.str "test")])).1 rfl,
   (C4_lenient_accessors
      (Json.obj [("id", Json.str "not_a_number")])).1 rfl⟩

/-- C6: a fresh RpcRequest has empty method and null params (and protocol
version "2.0"); RpcResponse::new(k) builds a document whose keys are
exactly `jsonrpc` (value "2.0") and `id` (value k), with `result` and
`error` absent, so id() = k and result() = error() = null. Both
constructors are total functions of the model, hence infallible. -/
theorem C6_constructor_defaults (g : IdGen) (k : Nat) :
    (RpcRequest.new g).1.method = ""
    ∧ (RpcRequest.new g).1.params = Json.null
    ∧ (RpcRequest.new g).1.jsonrpc = "2.0"
    ∧ (RpcResponse.new k).value
        = Json.obj [("jsonrpc", Json.str "2.0"), ("id", Json.num (JNum.posInt k))]
    ∧ (RpcResponse.new k).value.objKeys = ["jsonrpc", "id"]
    ∧ (RpcResponse.new k).id = k
    ∧ (RpcResponse.new k).result = Json.null
    ∧ (RpcResponse.new k).error = Json.null
    ∧ (RpcResponse.new k).value.get "result" = none
    ∧ (RpcResponse.new k).value.get "error" = none :=
  ⟨rfl, rfl, rfl, rfl, rfl, rfl, rfl, rfl, rfl, rfl⟩

/-- C7: the serialized form of every RpcRequest is an object whose keys
appear in declaration order: jsonrpc, method, params, id. -/
theorem C7_field_order (r : RpcRequest) :
    r.to_json.objKeys = ["jsonrpc", "method", "params", "id"] := rfl

/-- C8: RpcResponse::from_json accepts every JSON value without
validation (it is a total function of the model), and as_json() returns
exactly the wrapped value. -/
theorem C8_wrap_identity (v : Json) :
    (RpcResponse.from_json v).as_json = v := rfl

/-- C9: the setters are not total — on a response whose backing value is
neither null nor an object the string-index write aborts (modelled as
`none`), while on a null backing value the document is replaced by a fresh
object holding only the written key. -/
theorem C9_setter_abort (v w : Json) :
    (Json.isNullOrObj v = false →
        (RpcResponse.from_json v).set_result w = none
        ∧ (RpcResponse.from_json v).set_error w = none)
    ∧ (RpcResponse.from_json Json.null).set_result w
        = some ⟨Json.obj [("result", w)]⟩
    ∧ (RpcResponse.from_json Json.null).set_error w
        = some ⟨Json.obj [("error", w)]⟩ := by
  refine ⟨fun h => ?_, rfl, rfl⟩
  cases v <;>
    simp_all [RpcResponse.from_json, RpcResponse.set_result,
              RpcResponse.set_error, indexOrInsert, Json.isNullOrObj]

/-- C9 (witness): on the numeric document json!(5) both setters abort. -/
theorem C9_witness :
    (RpcResponse.from_json (Json.num (JNum.posInt 5))).set_result (Json.str "x") = none
    ∧ (RpcResponse.from_json (Json.num (JNum.posInt 5))).set_error (Json.str "x") = none :=
  (C9_setter_abort (Json.num (JNum.posInt 5)) (Json.str "x")).1 rfl

/-- C10: RpcRequest::from_json succeeds on every JSON object carrying the
four well-typed fields — `jsonrpc` any string (not only "2.0"), `method` a
string, `params` any value, `id` an unsigned integer — regardless of
additional unknown keys, which are ignored; the duplicate-free side
condition is automatic for documents of the JSON library, whose maps
cannot repeat keys. -/
theorem C10_lenient_object_parse (fs : List (String × Json)) (jv m : String)
    (p : Json) (n : Nat)
    (hd : dupKnown fs = false)
    (h1 : fs.lookup "jsonrpc" = some (Json.str jv))
    (h2 : fs.lookup "method" = some (Json.str m))
    (h3 : fs.lookup "params" = some p)
    (h4 : fs.lookup "id" = some (Json.num (JNum.posInt n))) :
    RpcRequest.from_json (Json.obj fs) = Except.ok ⟨jv, m, p, n⟩ := by
  unfold RpcRequest.from_json
  simp [hd, h1, h2, h3, h4, Json.asU64]

/-- C10 (witness): an object with an unknown extra key and protocol
version "3.0" still parses, yielding the four stored fields. -/
theorem C10_witness :
    RpcRequest.from_json
      (Json.obj [("extra", Json.bool true), ("jsonrpc", Json.str "3.0"),
                 ("method", Json.str "ping"), ("params", Json.null),
                 ("id", Json.num (JNum.posInt 7))])
      = Except.ok ⟨"3.0", "ping", Json.null, 7⟩ :=
  C10_lenient_object_parse
    [("extra", Json.bool true), ("jsonrpc", Json.str "3.0"),
     ("method", Json.str "ping"), ("params", Json.null),
     ("id", Json.num (JNum.posInt 7))]
    "3.0" "ping" Json.null 7 rfl rfl rfl rfl rfl

/-- C3 (counterexample): the derived deserializer also accepts a
four-element array holding the fields positionally, so an input value
that carries none of the required keys (`jsonrpc` is not present —
`get` finds nothing on an array) can still parse successfully,
contradicting the claim that every input missing a required key is
rejected. -/
theorem C3_counterexample :
    (Json.arr [Json.str "2.0", Json.str "subtract", Json.null,
               Json.num (JNum.posInt 5)]).get "jsonrpc" = none
    ∧ RpcRequest.from_json
        (Json.arr [Json.str "2.0", Json.str "subtract", Json.null,
                   Json.num (JNum.posInt 5)])
      = Except.ok ⟨"2.0", "subtract", Json.null, 5⟩ :=
  ⟨rfl, rfl⟩

/-- C3 (amended): RpcRequest::from_json rejects every JSON *object* in
which any of the required keys `jsonrpc`, `method`, `params`, `id` is
missing or mistyped (in particular the object with single key "invalid");
the only non-object inputs it accepts are four-element arrays carrying
the fields positionally. It remains the sole operation returning a
Result. -/
theorem C3_object_rejection (fs : List (String × Json))
    (h : reqFieldsOk fs = false) :
    (RpcRequest.from_json (Json.obj fs)).isOk = false := by
  simp only [RpcRequest.from_json]
  split
  · rfl
  · split
    · rename_i h1 h2 h3 h4
      split
      · rename_i n hn
        exfalso
        simp [reqFieldsOk, h1, h2, h3, h4, hn] at h
      · rfl
    · rfl

/-- C3 (witness): the spec's concrete malformed document, the object
holding only the key "invalid", fails to parse. -/
theorem C3_witness :
    reqFieldsOk [("invalid", Json.str "structure")] = false
    ∧ (RpcRequest.from_json
        (Json.obj [("invalid", Json.str "structure")])).isOk = false :=
  ⟨rfl, C3_object_rejection [("invalid", Json.str "structure")] rfl⟩

/-- C5: whenever a setter call completes (the abort case is the subject of
C9), set_result leaves error() unchanged and set_error leaves result()
unchanged; each setter makes its own key hold exactly the written value —
so repeated calls overwrite — and leaves every other key of the document
untouched, whatever sequence of setter calls produced the current
state. -/
theorem C5_setter_independence (r : RpcResponse) (v : Json) :
    (∀ r', r.set_result v = some r' →
        r'.error = r.error
        ∧ r'.value.get "result" = some v
        ∧ ∀ k, k ≠ "result" → r'.value.get k = r.value.get k)
    ∧ (∀ r', r.set_error v = some r' →
        r'.result = r.result
        ∧ r'.value.get "error" = some v
        ∧ ∀ k, k ≠ "error" → r'.value.get k = r.value.get k) := by
  constructor
  · intro r' h
    have h' : indexOrInsert r.value "result" v = some r'.value := by
      unfold RpcResponse.set_result at h
      cases hi : indexOrInsert r.value "result" v with
      | none => rw [hi] at h; simp at h
      | some j' =>
          rw [hi] at h
          simp only [Option.map_some'] at h
          cases h
          rfl
    obtain ⟨h1, h2⟩ := setKey_frame r.value "result" v r'.value h'
    refine ⟨?_, h1, h2⟩
    unfold RpcResponse.error
    rw [h2 "error" (by decide)]
  · intro r' h
    have h' : indexOrInsert r.value "error" v = some r'.value := by
      unfold RpcResponse.set_error at h
      cases hi : indexOrInsert r.value "error" v with
      | none => rw [hi] at h; simp at h
      | some j' =>
          rw [hi] at h
          simp only [Option.map_some'] at h
          cases h
          rfl
    obtain ⟨h1, h2⟩ := setKey_frame r.value "error" v r'.value h'
    refine ⟨?_, h1, h2⟩
    unfold RpcResponse.result
    rw [h2 "result" (by decide)]

/-- C5 (witness): on a fresh response with id 1, writing the result leaves
error() at null, stores the written value under `result`, and leaves the
`id` key untouched. -/
theorem C5_witness :
    (RpcResponse.mk (Json.obj
        [("jsonrpc", Json.str "2.0"), ("id", Json.num (JNum.posInt 1)),
         ("result", Json.str "ok")])).error = (RpcResponse.new 1).error
    ∧ (RpcResponse.mk (Json.obj
        [("jsonrpc", Json.str "2.0"), ("id", Json.num (JNum.posInt 1)),
         ("result", Json.str "ok")])).value.get "result" = some (Json.str "ok") :=
  ⟨((C5_setter_independence (RpcResponse.new 1) (Json.str "ok")).1
      (RpcResponse.mk (Json.obj
        [("jsonrpc", Json.str "2.0"), ("id", Json.num (JNum.posInt 1)),
         ("result", Json.str "ok")])) rfl).1,
   ((C5_setter_independence (RpcResponse.new 1) (Json.str "ok")).1
      (RpcResponse.mk (Json.obj
        [("jsonrpc", Json.str "2.0"), ("id", Json.num (JNum.posInt 1)),
         ("result", Json.str "ok")])) rfl).2.1⟩
